import Mathlib

/-!
Verification of the Majsoul-Data export script (`src/main.py`) against its
natural-language specification.

The script fetches a version file, compares it with the locally stored one,
downloads `config.proto` and `lqc.lqbin` on an update, generates a
`parsed.proto` text from the schemas contained in the bundle, and exports
every data block to a JSON file.  Below we give a shallow embedding of the
pieces of that script that the specification's claims are about:

* the class-name / TypeKey normalisation (`main.py` lines 74-75 and 102-104),
* the `parsed.proto` text generation (lines 70-84),
* the per-row JSON record construction (lines 114-126),
* the per-table export loop with its file writes (lines 101-128),
* the version-check / download prelude as an event trace (lines 8-52).

Python string semantics that the code relies on (`str.split("_")`,
`str.capitalize`) are embedded as explicit functions on `List Char`.
-/

namespace MajsoulData

/-! ## Python string primitives used by the script -/

/-- Python `s.split("_")`: splits on every underscore and keeps empty
segments, so `"".split("_") = [""]` and `"_".split("_") = ["", ""]`. -/
def splitUnderscore : List Char → List (List Char)
  | [] => [[]]
  | c :: rest =>
    if c = '_' then [] :: splitUnderscore rest
    else
      match splitUnderscore rest with
      | [] => [[c]]
      | g :: gs => (c :: g) :: gs

/-- Python `s.capitalize()`: first character uppercased, every remaining
character lowercased. -/
def pyCapitalize : List Char → List Char
  | [] => []
  | c :: rest => c.toUpper :: rest.map Char.toLower

/-! ## TypeKey / class-name normalisation

`main.py` line 74-75 (schema side):
`class_words = f"{schema.name}_{parsed.name}".split("_")`,
`class_name = "".join(name.capitalize() for name in class_words)`. -/

/-- Class name built while generating `parsed.proto` (lines 74-75). -/
def classNameSchema (schemaName sheetName : String) : String :=
  String.mk (((splitUnderscore (schemaName.data ++ '_' :: sheetName.data)).map pyCapitalize).flatten)

/-- Class name built while exporting a `DataBlock` (lines 102-103); the code
there is character-for-character the same expression applied to
`data.table` and `data.sheet`. -/
def classNameData (table sheet : String) : String :=
  String.mk (((splitUnderscore (table.data ++ '_' :: sheet.data)).map pyCapitalize).flatten)

/-- The TypeKey computation as the claim words it: *plain* concatenation of
table name and sheet name (no delimiter inserted between them), then split
on the delimiter, capitalize each segment and join.  Kept separate so it can
be compared with the computation actually performed by the code. -/
def classNameClaimed (table sheet : String) : String :=
  String.mk (((splitUnderscore (table.data ++ sheet.data)).map pyCapitalize).flatten)

/-! ## Schema model and `parsed.proto` generation (lines 70-84) -/

/-- One field of a sheet schema, as read from the `ConfigTables` message. -/
structure SchemaField where
  field_name : String
  pb_type : String
  pb_index : Nat
  array_length : Nat
deriving DecidableEq

/-- One sheet of a schema. -/
structure Sheet where
  name : String
  fields : List SchemaField
deriving DecidableEq

/-- One schema (a named group of sheets). -/
structure Schema where
  name : String
  sheets : List Sheet
deriving DecidableEq

/-- The `"repeated" if field.array_length > 0 else ""` marker of line 78. -/
def repMarker (f : SchemaField) : String :=
  if f.array_length > 0 then "repeated" else ""

/-- The f-string of line 78:
`f'  {...} {field.pb_type} {field.field_name} = {field.pb_index};\n'`. -/
def fieldLine (f : SchemaField) : String :=
  "  " ++ repMarker f ++ " " ++ f.pb_type ++ " " ++ f.field_name ++ " = "
    ++ toString f.pb_index ++ ";\n"

/-- The inner `for field in parsed.fields` accumulation (line 77-78). -/
def fieldLines : List SchemaField → String
  | [] => ""
  | f :: fs => fieldLine f ++ fieldLines fs

/-- One `message ... { ... }` block (lines 76-79). -/
def sheetMessage (schemaName : String) (sh : Sheet) : String :=
  "message " ++ classNameSchema schemaName sh.name ++ " \x7b\n"
    ++ fieldLines sh.fields ++ "\x7d\n\n"

/-- The `for parsed in schema.sheets` accumulation (line 73). -/
def sheetsText (schemaName : String) : List Sheet → String
  | [] => ""
  | sh :: shs => sheetMessage schemaName sh ++ sheetsText schemaName shs

/-- The `for schema in config_table.schemas` accumulation (line 72). -/
def messagesText : List Schema → String
  | [] => ""
  | s :: ss => sheetsText s.name s.sheets ++ messagesText ss

/-- The whole `new_proto` string built in lines 70-79. -/
def newProto (schemas : List Schema) : String :=
  "syntax = \"proto3\";\n\n" ++ messagesText schemas

/-! ## Spec-side schema validation (for comparison only)

The specification demands two validations that the script would have to
perform while building the schema.  These two definitions follow the spec's
words and exist only to be compared with `newProto`, which is the code's
actual behaviour. -/

/-- Errors the specification says schema loading raises. -/
inductive SchemaLoadError
  | unsupportedFieldType (tableName sheetName fieldName pbType : String)
  | duplicateFieldIndex (tableName sheetName : String) (idx : Nat)
deriving DecidableEq

/-- The closed set of recognized primitive wire-type names (spec section 3). -/
def recognizedTypes : List String :=
  ["int32", "int64", "uint32", "uint64", "sint32", "sint64", "fixed32",
   "fixed64", "sfixed32", "sfixed64", "float", "double", "bool", "string",
   "bytes"]

/-- Spec-side check (for comparison with the code): a field whose wire-type
string is outside `recognizedTypes` makes schema loading fail with
`UnsupportedFieldType` naming table, sheet, field and the offending string. -/
def specCheckFieldTypes (tName shName : String) :
    List SchemaField → Except SchemaLoadError Unit
  | [] => Except.ok ()
  | f :: fs =>
    if f.pb_type ∈ recognizedTypes then specCheckFieldTypes tName shName fs
    else Except.error (SchemaLoadError.unsupportedFieldType tName shName f.field_name f.pb_type)

/-- Spec-side check (for comparison with the code): two fields of one sheet
with the same declared index make schema loading fail with a validation
error instead of being resolved silently. -/
def specCheckDupIndices (tName shName : String) :
    List SchemaField → Except SchemaLoadError Unit
  | [] => Except.ok ()
  | f :: fs =>
    if fs.any (fun g => g.pb_index = f.pb_index) then
      Except.error (SchemaLoadError.duplicateFieldIndex tName shName f.pb_index)
    else specCheckDupIndices tName shName fs

/-! ## Substring occurrence

`occursIn needle haystack` states that `needle` appears verbatim inside
`haystack`.  Used to express that the generator copies schema strings into
`parsed.proto` unvalidated. -/

/-- `needle` occurs verbatim somewhere in `haystack`. -/
def occursIn (needle haystack : String) : Prop :=
  ∃ a b : String, haystack = a ++ (needle ++ b)

/-! ## Decoded rows (lines 114-126)

The export loop parses each raw row into a message of the generated class and
then builds a Python dict over `klass().DESCRIPTOR.fields`.  We model a
parsed proto3 message as an assignment from field names to wire presence:
a scalar field is either unset or carries one value, a repeated field
carries a (possibly empty) list of values. -/

/-- Scalar value categories of the generated messages. -/
inductive PbScalar
  | pInt (i : Int)
  | pStr (s : String)
  | pBool (b : Bool)
deriving DecidableEq

/-- Scalar type of a declared field, with its proto3 default. -/
inductive ScalarTy
  | intTy
  | strTy
  | boolTy
deriving DecidableEq

/-- The proto3 default value of a scalar type: zero, empty string, false. -/
def defaultScalar : ScalarTy → PbScalar
  | ScalarTy.intTy => PbScalar.pInt 0
  | ScalarTy.strTy => PbScalar.pStr ""
  | ScalarTy.boolTy => PbScalar.pBool false

/-- Presence of one field in a parsed row. -/
inductive FieldVal
  | unset
  | single (v : PbScalar)
  | many (vs : List PbScalar)
deriving DecidableEq

/-- A descriptor field of the generated class (`DESCRIPTOR.fields` entry). -/
structure FieldDescr where
  name : String
  ty : ScalarTy
  isRepeated : Bool
deriving DecidableEq

/-- A parsed message: what the wire actually carried for each field name. -/
def Msg : Type := String → FieldVal

/-- JSON values as produced by the export loop and `json.dump`. -/
inductive JsonVal
  | null
  | jInt (i : Int)
  | jStr (s : String)
  | jBool (b : Bool)
  | arr (l : List JsonVal)

/-- Render one scalar. -/
def scalarToJson : PbScalar → JsonVal
  | PbScalar.pInt i => JsonVal.jInt i
  | PbScalar.pStr s => JsonVal.jStr s
  | PbScalar.pBool b => JsonVal.jBool b

/-- Python `hasattr(field, descriptor_field.name)` (line 119).  For a Python
protobuf message every declared field is an attribute of the message object,
whether or not it was present on the wire, so this is constantly `true`; the
definition keeps the check so that the dead `None` branch of line 125 can be
embedded faithfully in `rowEntry`. -/
def pbHasattr (_msg : Msg) (_f : FieldDescr) : Bool := true

/-- Python `getattr(field, descriptor_field.name)` (line 120), per protobuf
proto3 semantics: an unset scalar reads as its type's default, a repeated
field reads as its (possibly empty) element list. -/
def pbGetattr (msg : Msg) (f : FieldDescr) : FieldVal :=
  if f.isRepeated then
    match msg f.name with
    | FieldVal.many vs => FieldVal.many vs
    | _ => FieldVal.many []
  else
    match msg f.name with
    | FieldVal.single v => FieldVal.single v
    | _ => FieldVal.single (defaultScalar f.ty)

/-- The body of the descriptor loop (lines 119-125): `hasattr` guard, the
`LABEL_REPEATED` conversion `value = list(value)`, and the (dead) `None`
branch. -/
def rowEntry (msg : Msg) (f : FieldDescr) : JsonVal :=
  if pbHasattr msg f then
    match pbGetattr msg f with
    | FieldVal.many vs => JsonVal.arr (vs.map scalarToJson)
    | FieldVal.single v => scalarToJson v
    | FieldVal.unset => JsonVal.null
  else
    JsonVal.null

/-- The `row` dict built by the loop over `klass().DESCRIPTOR.fields`
(lines 117-125); Python dicts preserve insertion order, so the row is an
ordered association list following the declaration order of the fields. -/
def buildRow (fields : List FieldDescr) (msg : Msg) : List (String × JsonVal) :=
  fields.map (fun f => (f.name, rowEntry msg f))

/-- The JSON value a declared-but-absent field of descriptor `f` resolves
to under `rowEntry`. -/
def defaultJson (f : FieldDescr) : JsonVal :=
  if f.isRepeated then JsonVal.arr [] else scalarToJson (defaultScalar f.ty)

/-! ## The per-table row loop and its failure behaviour (lines 114-126)

`field.ParseFromString(field_msg)` raises `DecodeError` on a corrupt row.
The loop body has no `try`, so the first failing row aborts the loop (and
the whole run).  `exportRows` is that loop: `decode` stands for parse-plus-
row-building for one raw row, and the accumulated `json_data` list is the
result. -/

/-- The error raised by `ParseFromString` on a corrupt row. -/
structure DecodeError where
  msg : String
deriving DecidableEq

/-- The raw rows of one data block, decoded by the loop of lines 114-126:
each success is appended to `json_data`; an exception propagates. -/
def exportRows (decode : String → Except DecodeError (List (String × JsonVal))) :
    List String → Except DecodeError (List (List (String × JsonVal)))
  | [] => Except.ok []
  | m :: rest =>
    match decode m with
    | Except.error e => Except.error e
    | Except.ok r =>
      match exportRows decode rest with
      | Except.error e => Except.error e
      | Except.ok rs => Except.ok (r :: rs)

/-! ## The data-block export loop and its file writes (lines 101-128)

Each block writes `data/{class_name}.json` opened with mode `"w"`, i.e. the
file is created or truncated and then holds exactly this block's rows.  The
file system is a partial map from paths to decoded-row lists. -/

/-- One entry of `config_table.datas`. -/
structure DataBlock where
  table : String
  sheet : String
  rows : List String
deriving DecidableEq

/-- The output path of a block (line 106-107): `data/{class_name}.json`. -/
def exportPath (d : DataBlock) : String :=
  "data/" ++ classNameData d.table d.sheet ++ ".json"

/-- The rows of one block decoded in original order (lines 114-126), with
`dec` standing for the per-class decode of one raw row. -/
def exportBlock (dec : String → String → List (String × JsonVal))
    (d : DataBlock) : List (List (String × JsonVal)) :=
  d.rows.map (dec (classNameData d.table d.sheet))

/-- The `for data in config_table.datas` loop (lines 101-128) as a file-system
transformer: each block's `json.dump` stores its own `json_data` at its
path, replacing whatever an earlier block put there. -/
def runExport (dec : String → String → List (String × JsonVal)) :
    List DataBlock → (String → Option (List (List (String × JsonVal))))
    → String → Option (List (List (String × JsonVal)))
  | [], fs => fs
  | d :: rest, fs =>
    runExport dec rest
      (fun p => if p = exportPath d then some (exportBlock dec d) else fs p)

/-! ## The version check and download prelude (lines 8-52)

The observable behaviour of lines 8-52 is a sequence of effects: HTTP GET
requests, prints, file writes and program exits.  The trace is a function of
the fetched live version, the parsed local `version.json`, and the entries
found in the resversion index.  The steps from line 54 onward (protoc,
dynamic loading, export) perform no further HTTP request; they are modelled
elsewhere in this file and are irrelevant to the two claims about this
prelude, so the trace ends after the `lqc.lqbin` write. -/

/-- One observable effect of the script. -/
inductive Event
  | getReq (url : String)
  | println (s : String)
  | writeFile (path : String) (content : String)
  | exitProg (code : Nat)
deriving DecidableEq

/-- A parsed version JSON document: `version` is the `"version"` entry used
to build URLs, `raw` stands for the document as a whole (used for equality
comparison on line 15 and as the serialization written on line 21). -/
structure VersionJson where
  version : String
  raw : String
deriving DecidableEq

/-- The entries of `resversion{...}.json` relevant to the script: the
`prefix` values found for `config.proto` and `lqc.lqbin` (lines 31-35),
`none` when the loop found no matching path. -/
structure ResIndex where
  configPfx : Option String
  lqcPfx : Option String
deriving DecidableEq

/-- The base URL of line 8. -/
def baseURL : String := "https://game.maj-soul.com/1"

/-- The effect trace of lines 8-52.  `configBytes` and `lqcBytes` are the
bodies returned by the two resource downloads. -/
def mainTrace (localV liveV : VersionJson) (res : ResIndex)
    (configBytes lqcBytes : String) : List Event :=
  Event.getReq (baseURL ++ "/version.json") ::
    (if localV = liveV then
      [Event.println "No update", Event.exitProg 0]
    else
      Event.println ("New Live version: " ++ liveV.raw) ::
      Event.writeFile "version.json" liveV.raw ::
      Event.getReq (baseURL ++ "/resversion" ++ liveV.version ++ ".json") ::
        (match res.configPfx, res.lqcPfx with
         | some cp, some lp =>
           [Event.println "Download config.proto...",
            Event.getReq (baseURL ++ "/" ++ cp ++ "/res/proto/config.proto"),
            Event.writeFile "config.proto" configBytes,
            Event.println "Download lqc.lqbin...",
            Event.getReq (baseURL ++ "/" ++ lp ++ "/res/config/lqc.lqbin"),
            Event.writeFile "lqc.lqbin" lqcBytes]
         | _, _ =>
           [Event.println "config.proto or lqc.lqbin not found",
            Event.exitProg 1]))

/-! ## Concrete inputs used by counterexamples and witnesses -/

/-- A decode function with one corrupt row: `"bad"` raises, everything else
decodes to a one-field record. -/
def cexDecode : String → Except DecodeError (List (String × JsonVal)) :=
  fun r =>
    if r = "bad" then Except.error ⟨"Error parsing message"⟩
    else Except.ok [("id", JsonVal.jInt 7)]

/-- A per-class decode function tagging each raw row with its bytes. -/
def cexDec : String → String → List (String × JsonVal) :=
  fun _ r => [("raw", JsonVal.jStr r)]

/-- First of two data blocks with the same table identity. -/
def cexBlockA : DataBlock := ⟨"t", "s", ["r1"]⟩

/-- Second of two data blocks with the same table identity. -/
def cexBlockB : DataBlock := ⟨"t", "s", ["r2"]⟩

/-- A schema whose single field declares the unrecognized wire type
`"bogus"`. -/
def bogusSchema : Schema := ⟨"t", [⟨"s", [⟨"f", "bogus", 1, 0⟩]⟩]⟩

/-- A sheet declaring two fields with the same field index 1. -/
def dupSheet : Sheet := ⟨"s", [⟨"a", "int32", 1, 0⟩, ⟨"b", "int32", 1, 0⟩]⟩

/-- A one-field descriptor list (singular int field `id`). -/
def idFields : List FieldDescr := [⟨"id", ScalarTy.intTy, false⟩]

/-- A parsed message carrying no field at all. -/
def emptyMsg : Msg := fun _ => FieldVal.unset

/-!
# Theorems

Helper lemmas first, then one theorem (plus witness or counterexample) per
claim of the specification.
-/

/-! ## Substring occurrence helpers -/

theorem occursIn_appendLeft {n h : String} (x : String) (ho : occursIn n h) :
    occursIn n (x ++ h) := by
  obtain ⟨a, b, rfl⟩ := ho
  exact ⟨x ++ a, b, by rw [String.append_assoc]⟩

theorem occursIn_appendRight {n h : String} (x : String) (ho : occursIn n h) :
    occursIn n (h ++ x) := by
  obtain ⟨a, b, rfl⟩ := ho
  exact ⟨a, b ++ x, by rw [String.append_assoc, String.append_assoc]⟩

theorem occursIn_trans {a b c : String} (hab : occursIn a b) (hbc : occursIn b c) :
    occursIn a c := by
  obtain ⟨x, y, rfl⟩ := hab
  obtain ⟨u, v, rfl⟩ := hbc
  exact ⟨u ++ x, y ++ v, by simp [String.append_assoc]⟩

/-- Each field's wire-type string occurs verbatim in its generated line. -/
theorem pb_type_occursIn_fieldLine (f : SchemaField) :
    occursIn f.pb_type (fieldLine f) :=
  ⟨"  " ++ repMarker f ++ " ",
   " " ++ f.field_name ++ " = " ++ toString f.pb_index ++ ";\n",
   by simp [fieldLine, String.append_assoc]⟩

/-- Each field's whole line occurs verbatim in the lines of its sheet. -/
theorem fieldLine_occursIn_fieldLines {f : SchemaField} {fs : List SchemaField}
    (hf : f ∈ fs) : occursIn (fieldLine f) (fieldLines fs) := by
  induction fs with
  | nil => cases hf
  | cons g gs ih =>
    rcases List.mem_cons.mp hf with rfl | hmem
    · exact ⟨"", fieldLines gs, by simp [fieldLines, String.append_assoc]⟩
    · exact occursIn_appendLeft (fieldLine g) (ih hmem)

theorem fieldLines_occursIn_sheetMessage (schemaName : String) (sh : Sheet) :
    occursIn (fieldLines sh.fields) (sheetMessage schemaName sh) :=
  ⟨"message " ++ classNameSchema schemaName sh.name ++ " \x7b\n", "\x7d\n\n",
   by simp [sheetMessage, String.append_assoc]⟩

theorem sheetMessage_occursIn_sheetsText {sh : Sheet} {shs : List Sheet}
    (schemaName : String) (hm : sh ∈ shs) :
    occursIn (sheetMessage schemaName sh) (sheetsText schemaName shs) := by
  induction shs with
  | nil => cases hm
  | cons t ts ih =>
    rcases List.mem_cons.mp hm with rfl | hmem
    · exact ⟨"", sheetsText schemaName ts, by simp [sheetsText]⟩
    · exact occursIn_appendLeft (sheetMessage schemaName t) (ih hmem)

theorem sheetsText_occursIn_newProto {s : Schema} {schemas : List Schema}
    (hs : s ∈ schemas) :
    occursIn (sheetsText s.name s.sheets) (newProto schemas) := by
  have hmsg : occursIn (sheetsText s.name s.sheets) (messagesText schemas) := by
    induction schemas with
    | nil => cases hs
    | cons t ts ih =>
      rcases List.mem_cons.mp hs with rfl | hmem
      · exact ⟨"", messagesText ts, by simp [messagesText]⟩
      · exact occursIn_appendLeft (sheetsText t.name t.sheets) (ih hmem)
  exact occursIn_appendLeft _ hmsg

/-- Every declared field of every sheet of every schema in the bundle has its
generated line occurring verbatim in `parsed.proto`. -/
theorem fieldLine_occursIn_newProto (schemas : List Schema) (s : Schema)
    (sh : Sheet) (f : SchemaField) (hs : s ∈ schemas) (hsh : sh ∈ s.sheets)
    (hf : f ∈ sh.fields) : occursIn (fieldLine f) (newProto schemas) :=
  occursIn_trans
    (occursIn_trans (fieldLine_occursIn_fieldLines hf)
      (fieldLines_occursIn_sheetMessage s.name sh))
    (occursIn_trans (sheetMessage_occursIn_sheetsText s.name hsh)
      (sheetsText_occursIn_newProto hs))

/-! ## Row-building helpers -/

/-- A scalar never renders as JSON null. -/
theorem scalarToJson_ne_null (v : PbScalar) : scalarToJson v ≠ JsonVal.null := by
  cases v <;> simp [scalarToJson]

/-- A declared-but-unset field reads back as its default. -/
theorem rowEntry_unset {msg : Msg} (f : FieldDescr)
    (h : msg f.name = FieldVal.unset) : rowEntry msg f = defaultJson f := by
  unfold rowEntry pbHasattr pbGetattr defaultJson
  by_cases hr : f.isRepeated <;> simp [hr, h]

/-- No field of a built row ever renders as JSON null. -/
theorem rowEntry_ne_null (msg : Msg) (f : FieldDescr) :
    rowEntry msg f ≠ JsonVal.null := by
  unfold rowEntry pbHasattr pbGetattr
  by_cases hr : f.isRepeated <;>
    cases h : msg f.name <;>
      simp [hr, h, scalarToJson_ne_null]

/-- A repeated field always renders as a JSON array. -/
theorem rowEntry_repeated_arr (msg : Msg) (f : FieldDescr)
    (hr : f.isRepeated = true) : ∃ l, rowEntry msg f = JsonVal.arr l := by
  unfold rowEntry pbHasattr pbGetattr
  cases h : msg f.name <;> simp [hr, h]

/-! ## Claim theorems -/

/-- C1 (counterexample): the row loop of lines 114-126 has no `try` around
`ParseFromString`, so with a decoder that fails on the first of two rows the
loop propagates the error instead of skipping the row and returning the
remaining decoded row; no skipped-row count exists anywhere in the result. -/
theorem rowError_aborts_counterexample :
    exportRows cexDecode ["bad", "good"] =
      Except.error ⟨"Error parsing message"⟩ ∧
    exportRows cexDecode ["bad", "good"] ≠
      Except.ok [[("id", JsonVal.jInt 7)]] := by
  refine ⟨rfl, ?_⟩
  intro h
  rw [show exportRows cexDecode ["bad", "good"] =
      Except.error ⟨"Error parsing message"⟩ from rfl] at h
  exact Except.noConfusion h

/-- C1 (amended): if decoding one row raises a decode error, the error
propagates out of the export loop: the rows after it are not decoded, the
table's export aborts at the failing row, and no skipped-row count is
recorded or reported. -/
theorem rowError_aborts_export
    (decode : String → Except DecodeError (List (String × JsonVal)))
    (pre : List String) (bad : String) (post : List String) (e : DecodeError)
    (hpre : ∀ r ∈ pre, ∃ v, decode r = Except.ok v)
    (hbad : decode bad = Except.error e) :
    exportRows decode (pre ++ bad :: post) = Except.error e := by
  induction pre with
  | nil => simp [exportRows, hbad]
  | cons r rs ih =>
    obtain ⟨v, hv⟩ := hpre r (List.mem_cons_self r rs)
    have ih' := ih (fun x hx => hpre x (List.mem_cons_of_mem r hx))
    simp [exportRows, hv, ih']

/-- C1 (witness): the amended statement evaluated on a concrete corrupt
row followed by further rows. -/
theorem rowError_aborts_export_witness :
    exportRows cexDecode ([] ++ "bad" :: ["good", "good"]) =
      Except.error ⟨"Error parsing message"⟩ :=
  rowError_aborts_export cexDecode [] "bad" ["good", "good"]
    ⟨"Error parsing message"⟩ (fun r hr => absurd hr (List.not_mem_nil r)) rfl

/-- C2: a field declared in the schema but unset in the parsed row resolves
to its type's documented default — empty array for repeated fields, zero,
empty string or false for scalars — and no field of a built row is ever
rendered as JSON null. -/
theorem absent_field_resolves_to_default (fields : List FieldDescr) (msg : Msg)
    (f : FieldDescr) (hf : f ∈ fields) (hunset : msg f.name = FieldVal.unset) :
    rowEntry msg f = defaultJson f ∧
    (f.name, defaultJson f) ∈ buildRow fields msg ∧
    (defaultJson f = JsonVal.arr [] ∨ defaultJson f = JsonVal.jInt 0 ∨
      defaultJson f = JsonVal.jStr "" ∨ defaultJson f = JsonVal.jBool false) ∧
    (∀ p ∈ buildRow fields msg, p.2 ≠ JsonVal.null) := by
  refine ⟨rowEntry_unset f hunset, ?_, ?_, ?_⟩
  · exact List.mem_map.mpr ⟨f, hf, by rw [rowEntry_unset f hunset]⟩
  · unfold defaultJson
    by_cases hr : f.isRepeated
    · simp [hr]
    · cases hty : f.ty <;> simp [hr, hty, defaultScalar, scalarToJson]
  · intro p hp
    obtain ⟨g, _, rfl⟩ := List.mem_map.mp hp
    exact rowEntry_ne_null msg g

/-- C2 (witness): the theorem evaluated on a concrete one-field schema and a
row carrying nothing: the `id` field resolves to its default. -/
theorem absent_field_resolves_to_default_witness :
    rowEntry emptyMsg ⟨"id", ScalarTy.intTy, false⟩ =
      defaultJson ⟨"id", ScalarTy.intTy, false⟩ :=
  (absent_field_resolves_to_default idFields emptyMsg
    ⟨"id", ScalarTy.intTy, false⟩ (List.mem_cons_self _ _) rfl).1

/-- C3: every built row has exactly one property per declared field, with
property order following the declaration order of `DESCRIPTOR.fields`; the
key sequence is independent of the row's contents (stable shape, hence no
property for a field absent from the schema); repeated fields always render
as arrays. -/
theorem row_shape_stable (fields : List FieldDescr) (msg msg2 : Msg) :
    (buildRow fields msg).map Prod.fst = fields.map FieldDescr.name ∧
    (buildRow fields msg).map Prod.fst = (buildRow fields msg2).map Prod.fst ∧
    (∀ i : Nat, (buildRow fields msg)[i]? =
      (fields[i]?).map (fun f => (f.name, rowEntry msg f))) ∧
    (∀ f, f.isRepeated = true → ∃ l, rowEntry msg f = JsonVal.arr l) := by
  refine ⟨?_, ?_, ?_, ?_⟩
  · simp [buildRow]
  · simp [buildRow]
  · intro i
    simp [buildRow]
  · exact fun f hr => rowEntry_repeated_arr msg f hr

/-- C3 (witness): the shape statement evaluated on a concrete schema: the
key list of a row built from an empty message is exactly the declared field
name. -/
theorem row_shape_stable_witness :
    (buildRow idFields emptyMsg).map Prod.fst = idFields.map FieldDescr.name :=
  (row_shape_stable idFields emptyMsg emptyMsg).1

/-- C4 (counterexample): the claimed computation — plain concatenation of
table name and sheet name, then split on the delimiter — yields `"Itemdata"`
for `("item", "data")`, whereas the code joins the two names *with* an
underscore before splitting (lines 74 and 102) and yields `"ItemData"`. -/
theorem typeKey_plain_concat_counterexample :
    classNameData "item" "data" = "ItemData" ∧
    classNameClaimed "item" "data" = "Itemdata" ∧
    classNameData "item" "data" ≠ classNameClaimed "item" "data" := by
  refine ⟨by decide, by decide, by decide⟩

/-- C4 (amended): the grouping key is computed by joining the table name and
sheet name with the underscore delimiter *between* them, splitting the result
on underscores, capitalizing each segment and joining the segments; the
schema-generation site (lines 74-75) and the DataBlock-export site
(lines 102-103) apply exactly the same normalization, so matching table/sheet
pairs always map to the same key. -/
theorem typeKey_same_normalization (table sheet : String) :
    classNameSchema table sheet = classNameData table sheet ∧
    classNameData table sheet =
      String.mk (((splitUnderscore (table.data ++ '_' :: sheet.data)).map
        pyCapitalize).flatten) :=
  ⟨rfl, rfl⟩

/-- C5 (counterexample): two data blocks with the same table identity each
open `data/{class_name}.json` with mode `"w"`; the second write truncates
and replaces the first, so the exported file holds only the second block's
row instead of the concatenation of both blocks' rows. -/
theorem sameTable_blocks_overwrite_counterexample :
    runExport cexDec [cexBlockA, cexBlockB] (fun _ => none) "data/TS.json" =
      some [[("raw", JsonVal.jStr "r2")]] ∧
    runExport cexDec [cexBlockA, cexBlockB] (fun _ => none) "data/TS.json" ≠
      some [[("raw", JsonVal.jStr "r1")], [("raw", JsonVal.jStr "r2")]] := by
  refine ⟨rfl, ?_⟩
  intro h
  rw [show runExport cexDec [cexBlockA, cexBlockB] (fun _ => none)
      "data/TS.json" = some [[("raw", JsonVal.jStr "r2")]] from rfl] at h
  simp at h

/-- C5 (amended): within one data block the raw rows are decoded in their
original order into one ordered sequence; but when several DataBlocks share
the same table identity they target the same output file, and the later
block's sequence *replaces* the earlier one (last-wins overwrite), not a
concatenation. -/
theorem sameTable_blocks_last_wins
    (dec : String → String → List (String × JsonVal)) (d1 d2 : DataBlock)
    (fs : String → Option (List (List (String × JsonVal))))
    (ht : d1.table = d2.table) (hs : d1.sheet = d2.sheet) :
    exportPath d1 = exportPath d2 ∧
    runExport dec [d1, d2] fs (exportPath d2) = some (exportBlock dec d2) ∧
    (∀ i : Nat, (exportBlock dec d2)[i]? =
      (d2.rows[i]?).map (dec (classNameData d2.table d2.sheet))) := by
  refine ⟨?_, ?_, ?_⟩
  · rw [exportPath, exportPath, ht, hs]
  · simp [runExport]
  · intro i
    simp [exportBlock]

/-- C5 (witness): the last-wins statement evaluated on two concrete blocks
with the same table identity. -/
theorem sameTable_blocks_last_wins_witness :
    runExport cexDec [cexBlockA, cexBlockB] (fun _ => none)
      (exportPath cexBlockB) = some (exportBlock cexDec cexBlockB) :=
  (sameTable_blocks_last_wins cexDec cexBlockA cexBlockB (fun _ => none)
    rfl rfl).2.1

/-- C6 (counterexample): a field declaring the unrecognized wire type
`"bogus"` does not make schema building fail; lines 77-78 emit the string
verbatim into `parsed.proto`, while the validation the spec demands (modelled
by `specCheckFieldTypes`) would reject it with `UnsupportedFieldType`. -/
theorem unsupported_type_not_rejected_counterexample :
    newProto [bogusSchema] =
      "syntax = \"proto3\";\n\nmessage TS \x7b\n   bogus f = 1;\n\x7d\n\n" ∧
    ("bogus" ∈ recognizedTypes) = False ∧
    specCheckFieldTypes "t" "s" [⟨"f", "bogus", 1, 0⟩] =
      Except.error (SchemaLoadError.unsupportedFieldType "t" "s" "f" "bogus") := by
  refine ⟨rfl, by simp [recognizedTypes], rfl⟩

/-- C6 (amended): the script never validates a field's wire-type string:
whatever the schema declares — recognized primitive name or not — is copied
verbatim into the generated `parsed.proto` text, and no `UnsupportedFieldType`
error is raised by the script (a bad type could only surface later, in the
external `protoc` invocation). -/
theorem unchecked_type_emitted (schemas : List Schema) (s : Schema) (sh : Sheet)
    (f : SchemaField) (hs : s ∈ schemas) (hsh : sh ∈ s.sheets)
    (hf : f ∈ sh.fields) : occursIn f.pb_type (newProto schemas) :=
  occursIn_trans (pb_type_occursIn_fieldLine f)
    (fieldLine_occursIn_newProto schemas s sh f hs hsh hf)

/-- C6 (witness): the amended statement evaluated on the concrete bundle
declaring the type `"bogus"`. -/
theorem unchecked_type_emitted_witness :
    occursIn "bogus" (newProto [bogusSchema]) :=
  unchecked_type_emitted [bogusSchema] bogusSchema ⟨"s", [⟨"f", "bogus", 1, 0⟩]⟩
    ⟨"f", "bogus", 1, 0⟩ (List.mem_cons_self _ _) (List.mem_cons_self _ _)
    (List.mem_cons_self _ _)

/-- C7 (counterexample): a sheet declaring two fields with the same index 1
does not make schema building fail; both lines are emitted verbatim into
`parsed.proto`, while the validation the spec demands (modelled by
`specCheckDupIndices`) would reject the sheet. -/
theorem duplicate_index_not_rejected_counterexample :
    newProto [⟨"t", [dupSheet]⟩] =
      "syntax = \"proto3\";\n\nmessage TS \x7b\n   int32 a = 1;\n   int32 b = 1;\n\x7d\n\n" ∧
    specCheckDupIndices "t" "s" dupSheet.fields =
      Except.error (SchemaLoadError.duplicateFieldIndex "t" "s" 1) := by
  exact ⟨rfl, rfl⟩

/-- C7 (amended): colliding field indices within one sheet are not detected
at schema-build time: both fields' lines are emitted verbatim into the
generated proto text — so neither an error is raised nor does the later field
silently win (breakage could only surface in the external `protoc` run). -/
theorem duplicate_index_both_emitted (schemas : List Schema) (s : Schema)
    (sh : Sheet) (f1 f2 : SchemaField) (hs : s ∈ schemas) (hsh : sh ∈ s.sheets)
    (hf1 : f1 ∈ sh.fields) (hf2 : f2 ∈ sh.fields)
    (_hidx : f1.pb_index = f2.pb_index) :
    occursIn (fieldLine f1) (newProto schemas) ∧
    occursIn (fieldLine f2) (newProto schemas) :=
  ⟨fieldLine_occursIn_newProto schemas s sh f1 hs hsh hf1,
   fieldLine_occursIn_newProto schemas s sh f2 hs hsh hf2⟩

/-- C7 (witness): the amended statement evaluated on the concrete sheet with
two index-1 fields. -/
theorem duplicate_index_both_emitted_witness :
    occursIn (fieldLine ⟨"a", "int32", 1, 0⟩) (newProto [⟨"t", [dupSheet]⟩]) ∧
    occursIn (fieldLine ⟨"b", "int32", 1, 0⟩) (newProto [⟨"t", [dupSheet]⟩]) :=
  duplicate_index_both_emitted [⟨"t", [dupSheet]⟩] ⟨"t", [dupSheet]⟩ dupSheet
    ⟨"a", "int32", 1, 0⟩ ⟨"b", "int32", 1, 0⟩ (List.mem_cons_self _ _)
    (List.mem_cons_self _ _) (List.mem_cons_self _ _)
    (List.mem_cons_of_mem _ (List.mem_cons_self _ _)) rfl

/-- C8: on an update (fetched live version differs from the stored one) the
trace of lines 8-52 writes the new version to `version.json` strictly before
the first resource request or resource write: the events before that write
contain no file write at all and no request other than the version fetch,
while the `config.proto` request and both resource writes come after it.
Hence a failure in any later step leaves `version.json` already advanced. -/
theorem version_written_before_downloads (localV liveV : VersionJson)
    (res : ResIndex) (cb lb cp lp : String) (hne : localV ≠ liveV)
    (hcp : res.configPfx = some cp) (hlp : res.lqcPfx = some lp) :
    ∃ pre post,
      mainTrace localV liveV res cb lb =
        pre ++ Event.writeFile "version.json" liveV.raw :: post ∧
      (∀ p c, Event.writeFile p c ∉ pre) ∧
      (∀ u, Event.getReq u ∈ pre → u = baseURL ++ "/version.json") ∧
      Event.getReq (baseURL ++ "/" ++ cp ++ "/res/proto/config.proto") ∈ post ∧
      Event.writeFile "config.proto" cb ∈ post ∧
      Event.writeFile "lqc.lqbin" lb ∈ post := by
  refine ⟨[Event.getReq (baseURL ++ "/version.json"),
           Event.println ("New Live version: " ++ liveV.raw)],
          Event.getReq (baseURL ++ "/resversion" ++ liveV.version ++ ".json") ::
            [Event.println "Download config.proto...",
             Event.getReq (baseURL ++ "/" ++ cp ++ "/res/proto/config.proto"),
             Event.writeFile "config.proto" cb,
             Event.println "Download lqc.lqbin...",
             Event.getReq (baseURL ++ "/" ++ lp ++ "/res/config/lqc.lqbin"),
             Event.writeFile "lqc.lqbin" lb], ?_, ?_, ?_, ?_, ?_, ?_⟩
  · simp only [mainTrace, if_neg hne, hcp, hlp]
    rfl
  · intro p c hm
    simp at hm
  · intro u hu
    simp at hu
    simpa using hu
  · simp
  · simp
  · simp

/-- C8 (witness): the ordering statement evaluated on a concrete run where
the live version differs from the stored one and both resources are found. -/
theorem version_written_before_downloads_witness :
    ∃ pre post,
      mainTrace ⟨"0.1", "A"⟩ ⟨"0.2", "B"⟩ ⟨some "p", some "q"⟩ "cb" "lb" =
        pre ++ Event.writeFile "version.json" "B" :: post ∧
      (∀ p c, Event.writeFile p c ∉ pre) ∧
      (∀ u, Event.getReq u ∈ pre → u = baseURL ++ "/version.json") ∧
      Event.getReq (baseURL ++ "/" ++ "p" ++ "/res/proto/config.proto") ∈ post ∧
      Event.writeFile "config.proto" "cb" ∈ post ∧
      Event.writeFile "lqc.lqbin" "lb" ∈ post :=
  version_written_before_downloads ⟨"0.1", "A"⟩ ⟨"0.2", "B"⟩
    ⟨some "p", some "q"⟩ "cb" "lb" "p" "q" (by decide) rfl rfl

/-- C9: when the fetched live version equals the parsed content of the local
`version.json`, the whole run consists of the version fetch, printing
`"No update"` and exiting with status 0: no file is written and no request
other than the version fetch is made. -/
theorem noUpdate_run_is_pure (localV liveV : VersionJson) (res : ResIndex)
    (cb lb : String) (heq : localV = liveV) :
    mainTrace localV liveV res cb lb =
      [Event.getReq (baseURL ++ "/version.json"),
       Event.println "No update", Event.exitProg 0] ∧
    (∀ p c, Event.writeFile p c ∉ mainTrace localV liveV res cb lb) ∧
    (∀ u, Event.getReq u ∈ mainTrace localV liveV res cb lb →
      u = baseURL ++ "/version.json") ∧
    Event.exitProg 0 ∈ mainTrace localV liveV res cb lb := by
  have ht : mainTrace localV liveV res cb lb =
      [Event.getReq (baseURL ++ "/version.json"),
       Event.println "No update", Event.exitProg 0] := by
    simp only [mainTrace, if_pos heq]
  refine ⟨ht, ?_, ?_, ?_⟩
  · intro p c hm
    rw [ht] at hm
    simp at hm
  · intro u hu
    rw [ht] at hu
    simp at hu
    simpa using hu
  · rw [ht]
    simp

/-- C9 (witness): the no-update statement evaluated on a concrete run with
equal versions. -/
theorem noUpdate_run_is_pure_witness :
    mainTrace ⟨"0.1", "A"⟩ ⟨"0.1", "A"⟩ ⟨some "p", some "q"⟩ "cb" "lb" =
      [Event.getReq (baseURL ++ "/version.json"),
       Event.println "No update", Event.exitProg 0] :=
  (noUpdate_run_is_pure ⟨"0.1", "A"⟩ ⟨"0.1", "A"⟩ ⟨some "p", some "q"⟩
    "cb" "lb" rfl).1

/-- C10: line 78 derives the `repeated` marker of a generated field solely
from `array_length`: the marker is `"repeated"` exactly when `array_length`
is positive, and a field with `array_length = 0` is emitted singular. -/
theorem repeated_iff_array_length_pos (f : SchemaField) :
    (repMarker f = "repeated" ↔ 0 < f.array_length) ∧
    (f.array_length = 0 → repMarker f = "") := by
  constructor
  · unfold repMarker
    by_cases h : f.array_length > 0 <;> simp [h]
  · intro h0
    unfold repMarker
    simp [h0]

/-- C10 (witness): the marker statement evaluated on a concrete field with
positive `array_length`. -/
theorem repeated_iff_array_length_pos_witness :
    repMarker ⟨"tags", "string", 2, 3⟩ = "repeated" :=
  (repeated_iff_array_length_pos ⟨"tags", "string", 2, 3⟩).1.mpr (by decide)

end MajsoulData
